import Mathlib

set_option maxRecDepth 8000

/-!
Shallow embedding of `SqlManager.create_table_and_insert_rows_from_csv` from
`src/pierredefourneaux_toolkit/sql_tools.py`, together with theorems about the
statements it builds and hands to the database execution collaborator.

Modelling conventions:
* a pandas scalar cell is `Cell`: either the missing-value sentinel `nan`
  (for which `pd.notna` is false) or an ordinary scalar, embedded as a string;
* the dataset produced by `pd.read_csv(csv)` is passed in explicitly as a
  `Dataset` (ordered column names plus rows, each row listing its cells in
  column order, one per column);
* the SQLAlchemy engine is an oracle `StoreStmt → Bool` telling whether the
  store accepts a given statement; the function returns the observable
  `Outcome` (one constructor per distinct printed/raised report of the Python
  code) together with the ordered trace of statements actually submitted to
  the execution collaborator;
* Python `None` passed as a bound parameter is `Option.none`;
* each row's INSERT runs inside its own `engine.begin()` block, i.e. it is
  committed on its own before the next row is attempted; a store failure
  raises, which aborts the loop but leaves earlier commits in place.  This is
  modelled by `runInserts`, which returns the committed inserts, the submitted
  trace and a success flag.
-/

namespace SqlTools

/-- A scalar cell of the tabular input: the missing-value sentinel (pandas
NaN) or an ordinary scalar value, embedded as a string. -/
inductive Cell where
  | nan : Cell
  | val : String → Cell
  deriving DecidableEq

/-- Python `pd.notna(x)`: false exactly on the missing-value sentinel. -/
def pd_notna : Cell → Bool
  | Cell.nan => false
  | Cell.val _ => true

/-- The tabular dataset returned by `pd.read_csv`: ordered column names
(`colonnes = list(df.columns)`) and the rows iterated by `df.iterrows()`. -/
structure Dataset where
  columns : List String
  rows : List (List Cell)
  deriving DecidableEq

/-- The tuple `valid_types` of recognized MySQL type names, verbatim from the
source. -/
def valid_types : List String :=
  ["TINYINT", "SMALLINT", "MEDIUMINT", "INT", "INTEGER", "BIGINT",
   "DECIMAL", "NUMERIC", "FLOAT", "DOUBLE", "DATE", "DATETIME",
   "TIMESTAMP", "TIME", "YEAR", "CHAR", "VARCHAR", "TEXT",
   "TINYTEXT", "MEDIUMTEXT", "LONGTEXT", "BLOB", "ENUM", "JSON"]

/-- The characters before the first `(`, i.e. `t.split("(")[0]`. -/
def before_paren : List Char → List Char
  | [] => []
  | c :: rest => if c = '(' then [] else c :: before_paren rest

/-- Python `base_type = t.split("(")[0].upper()`: the text before the first `(`
(or the whole string when there is none), uppercased. -/
def base_type (t : String) : String :=
  String.mk ((before_paren t.data).map Char.toUpper)

/-- The character scan performed by `re.sub(".csv", "", csv)`.  The pattern
`".csv"` is a regular expression in which `.` matches any character except a
newline, so the scan removes every non-overlapping occurrence of (any
non-newline character followed by `csv`), scanning left to right — not just a
trailing `.csv` extension. -/
def stripCsv : List Char → List Char
  | '\n' :: 'c' :: 's' :: 'v' :: 'c' :: 's' :: 'v' :: r3 =>
    '\n' :: 'c' :: 's' :: stripCsv r3
  | '\n' :: 'c' :: 's' :: 'v' :: rest2 =>
    '\n' :: 'c' :: 's' :: 'v' :: stripCsv rest2
  | _ :: 'c' :: 's' :: 'v' :: rest2 => stripCsv rest2
  | c0 :: rest => c0 :: stripCsv rest
  | [] => []

/-- Python `nom_de_la_table = re.sub(".csv", "", csv)`. -/
def nom_de_la_table (csv : String) : String :=
  String.mk (stripCsv csv.data)

/-- The validation loop over `colonnes_types = list(zip(colonnes, types))`:
the first `(column, declared type)` pair whose base token is not recognized,
if any; the Python loop raises `ValueError` on exactly this pair. -/
def findInvalid : List (String × String) → Option (String × String)
  | [] => none
  | p :: rest =>
    if base_type p.2 ∈ valid_types then findInvalid rest else some p

/-- The list `colonnes_a_creer` of clauses of the CREATE TABLE statement:
the optional synthetic auto-increment id column (only when `add_auto_id` is
truthy and `primary_keys` is falsy), each csv column as `` `name` type ``, the
optional composite PRIMARY KEY clause, and the FOREIGN KEY clauses. -/
def colonnes_a_creer (tbl : String) (cols types : List String)
    (add_auto_id : Bool) (primary_keys : List String)
    (foreign_keys : List (String × String × String)) : List String :=
  (if add_auto_id && primary_keys.isEmpty then
    [tbl ++ "_id INT AUTO_INCREMENT PRIMARY KEY"]
  else []) ++
  (cols.zip types).map (fun p => "`" ++ p.1 ++ "` " ++ p.2) ++
  (if primary_keys.isEmpty then []
  else ["PRIMARY KEY (" ++
    String.intercalate ", " (primary_keys.map (fun k => "`" ++ k ++ "`")) ++
    ")"]) ++
  (if foreign_keys.isEmpty then []
  else foreign_keys.map (fun f =>
    "FOREIGN KEY (`" ++ f.1 ++ "`) REFERENCES `" ++ f.2.1 ++ "`(`" ++
      f.2.2 ++ "`)"))

/-- The string `sql_create_table`: the CREATE TABLE statement assembled from the clause
list, `f"CREATE TABLE IF NOT EXISTS {nom_de_la_table} (\n"` plus the clauses
joined with `",\n"` plus `"\n);"`. -/
def sql_create_table (tbl : String) (clauses : List String) : String :=
  "CREATE TABLE IF NOT EXISTS " ++ tbl ++ " (\n" ++
    String.intercalate ",\n" clauses ++ "\n);"

/-- The string `insert_sql`: the parameterized INSERT statement built inside the row
loop (its text does not depend on the row).  `colonnes_str` joins the
backtick-quoted column names with `", "`; `placeholders` joins `:col` named
placeholders with `", "`; the surrounding whitespace reproduces the Python
triple-quoted f-string. -/
def insert_sql (tbl : String) (cols : List String) : String :=
  "\n                    INSERT INTO `" ++ tbl ++ "` (" ++
    String.intercalate ", " (cols.map (fun c => "`" ++ c ++ "`")) ++
    ")\n                    VALUES (" ++
    String.intercalate ", " (cols.map (fun c => ":" ++ c)) ++
    ");\n                "

/-- Python `row[col] if pd.notna(row[col]) else None`: the value bound to a column's
named placeholder. -/
def bindValue (c : Cell) : Option String :=
  if pd_notna c then
    match c with
    | Cell.nan => none
    | Cell.val s => some s
  else none

/-- The dict `valeurs = {col: row[col] if pd.notna(row[col]) else None for col
in colonnes}`, as an ordered association list keyed by the csv columns. -/
def valeurs (cols : List String) (row : List Cell) :
    List (String × Option String) :=
  (cols.zip row).map (fun p => (p.1, bindValue p.2))

/-- One parameterized DML statement handed to `conn.execute(insert_sql,
valeurs)`: the SQL text plus the named-parameter binding. -/
structure InsertStmt where
  sql : String
  params : List (String × Option String)
  deriving DecidableEq

/-- The INSERT statement and binding produced for one row. -/
def mkInsert (tbl : String) (cols : List String) (row : List Cell) :
    InsertStmt :=
  ⟨insert_sql tbl cols, valeurs cols row⟩

/-- Everything the builder emits on the success path: the single CREATE TABLE
statement and one INSERT per row, in row order. -/
structure Emission where
  ddl : String
  inserts : List InsertStmt
  deriving DecidableEq

/-- The emission assembled after validation passes. -/
def buildEmission (tbl : String) (cols types : List String)
    (add_auto_id : Bool) (primary_keys : List String)
    (foreign_keys : List (String × String × String))
    (rows : List (List Cell)) : Emission :=
  ⟨sql_create_table tbl
      (colonnes_a_creer tbl cols types add_auto_id primary_keys foreign_keys),
    rows.map (mkInsert tbl cols)⟩

/-- The emission of `create_table_and_insert_rows_from_csv`, with the table
name derived from the csv file name and the columns taken from the dataset. -/
def emission_of (csv : String) (df : Dataset) (types : List String)
    (add_auto_id : Bool) (primary_keys : List String)
    (foreign_keys : List (String × String × String)) : Emission :=
  buildEmission (nom_de_la_table csv) df.columns types add_auto_id
    primary_keys foreign_keys df.rows

/-- A statement submitted to the execution collaborator: the DDL text, or a
parameterized DML statement with its binding. -/
inductive StoreStmt where
  | ddl : String → StoreStmt
  | dml : InsertStmt → StoreStmt
  deriving DecidableEq

/-- The errors raised (as `ValueError`) and caught by the function before any
statement is submitted. `schemaMismatch` carries the two counts in the order
of the Python message (requested types, csv columns); `invalidColumnType`
carries the offending column and its full declared type string, as named in
the Python message. -/
inductive ValidationError where
  | schemaMismatch : Nat → Nat → ValidationError
  | invalidColumnType : String → String → ValidationError
  deriving DecidableEq

/-- The observable outcome of one call, one constructor per distinct
user-visible report of the Python code: the final success message; the
validation `ValueError` message; the missing `MYSQL_PASSWORD` `ValueError`
message; or the store-error message, with the rows committed before the
failing statement (each row is committed in its own `engine.begin()` block,
so they remain durably inserted). -/
inductive Outcome where
  | success : Emission → Outcome
  | validationFailure : ValidationError → Outcome
  | credentialMissing : Outcome
  | storeFailure : List InsertStmt → Outcome
  deriving DecidableEq

/-- The row loop `for _, row in df.iterrows(): with engine.begin() as conn:
conn.execute(insert_sql, valeurs)`: submit each INSERT in order, committing
each one on its own; stop at the first statement the store rejects.  Returns
(committed inserts, submitted trace, whether every row went through). -/
def runInserts (oracle : StoreStmt → Bool) :
    List InsertStmt → List InsertStmt × List StoreStmt × Bool
  | [] => ([], [], true)
  | s :: rest =>
    if oracle (StoreStmt.dml s) then
      match runInserts oracle rest with
      | (committed, submitted, ok) =>
        (s :: committed, StoreStmt.dml s :: submitted, ok)
    else ([], [StoreStmt.dml s], false)

/-- The post-validation part of the function: execute the CREATE TABLE
statement, then the per-row INSERT loop. -/
def execute (oracle : StoreStmt → Bool) (em : Emission) :
    Outcome × List StoreStmt :=
  if oracle (StoreStmt.ddl em.ddl) then
    match runInserts oracle em.inserts with
    | (committed, submitted, ok) =>
      ((if ok then Outcome.success em else Outcome.storeFailure committed),
        StoreStmt.ddl em.ddl :: submitted)
  else (Outcome.storeFailure [], [StoreStmt.ddl em.ddl])

/-- The method `SqlManager.create_table_and_insert_rows_from_csv`, in source order:
derive the table name, check the type-count/column-count arity, validate each
declared type's base token, check the `MYSQL_PASSWORD` credential, then build
the CREATE TABLE statement and run it followed by one INSERT per row.  Returns
the observable outcome and the ordered trace of statements submitted to the
execution collaborator. -/
def create_table_and_insert_rows_from_csv (oracle : StoreStmt → Bool)
    (csv : String) (df : Dataset) (types : List String)
    (mysql_password : Option String) (add_auto_id : Bool)
    (primary_keys : List String)
    (foreign_keys : List (String × String × String)) :
    Outcome × List StoreStmt :=
  if df.columns.length ≠ types.length then
    (Outcome.validationFailure
      (ValidationError.schemaMismatch types.length df.columns.length), [])
  else
    match findInvalid (df.columns.zip types) with
    | some p =>
      (Outcome.validationFailure
        (ValidationError.invalidColumnType p.1 p.2), [])
    | none =>
      match mysql_password with
      | none => (Outcome.credentialMissing, [])
      | some _ =>
        execute oracle
          (emission_of csv df types add_auto_id primary_keys foreign_keys)

/-- Whether an outcome is the success report. -/
def isSuccess : Outcome → Bool
  | Outcome.success _ => true
  | _ => false

/-- Whether an outcome is one of the two validation failures. -/
def isValidationFailure : Outcome → Bool
  | Outcome.validationFailure _ => true
  | _ => false

/-- Whether an outcome is the missing-credential failure. -/
def isCredentialMissing : Outcome → Bool
  | Outcome.credentialMissing => true
  | _ => false

/-- Whether an outcome is a store-execution failure. -/
def isStoreFailure : Outcome → Bool
  | Outcome.storeFailure _ => true
  | _ => false

/-- The outcome component of a call. -/
def outcome_of (oracle : StoreStmt → Bool) (csv : String) (df : Dataset)
    (types : List String) (mysql_password : Option String)
    (add_auto_id : Bool) (primary_keys : List String)
    (foreign_keys : List (String × String × String)) : Outcome :=
  (create_table_and_insert_rows_from_csv oracle csv df types mysql_password
    add_auto_id primary_keys foreign_keys).1

/-! Helper lemmas about the validation scan and the row loop. -/

theorem findInvalid_none_of_valid (l : List (String × String))
    (h : ∀ p ∈ l, base_type p.2 ∈ valid_types) : findInvalid l = none := by
  induction l with
  | nil => rfl
  | cons p rest ih =>
    have hp : base_type p.2 ∈ valid_types := h p (List.mem_cons_self p rest)
    simp only [findInvalid, if_pos hp]
    exact ih (fun q hq => h q (List.mem_cons_of_mem p hq))

theorem valid_of_findInvalid_none (l : List (String × String))
    (h : findInvalid l = none) : ∀ p ∈ l, base_type p.2 ∈ valid_types := by
  induction l with
  | nil => intro p hp; simp at hp
  | cons q rest ih =>
    by_cases hq : base_type q.2 ∈ valid_types
    · intro p hp
      rcases List.mem_cons.mp hp with rfl | hp'
      · exact hq
      · simp only [findInvalid, if_pos hq] at h
        exact ih h p hp'
    · simp only [findInvalid, if_neg hq] at h
      exact Option.noConfusion h

theorem findInvalid_some_spec (l : List (String × String)) (p : String × String)
    (h : findInvalid l = some p) : p ∈ l ∧ base_type p.2 ∉ valid_types := by
  induction l with
  | nil => simp [findInvalid] at h
  | cons q rest ih =>
    by_cases hq : base_type q.2 ∈ valid_types
    · simp only [findInvalid, if_pos hq] at h
      obtain ⟨h1, h2⟩ := ih h
      exact ⟨List.mem_cons_of_mem q h1, h2⟩
    · simp only [findInvalid, if_neg hq] at h
      obtain rfl := Option.some.inj h
      exact ⟨List.mem_cons_self q rest, hq⟩

theorem exists_mem_zip_right :
    ∀ (cols types : List String), cols.length = types.length →
      ∀ t ∈ types, ∃ c, (c, t) ∈ cols.zip types := by
  intro cols
  induction cols with
  | nil =>
    intro types h t ht
    cases types with
    | nil => simp at ht
    | cons t0 ts => simp at h
  | cons c0 cs ih =>
    intro types h t ht
    cases types with
    | nil => simp at ht
    | cons t0 ts =>
      simp only [List.length_cons, Nat.succ.injEq] at h
      rcases List.mem_cons.mp ht with rfl | hts
      · exact ⟨c0, by simp [List.zip_cons_cons]⟩
      · obtain ⟨c, hc⟩ := ih ts h t hts
        exact ⟨c, by simp [List.zip_cons_cons, hc]⟩

theorem runInserts_all_ok (oracle : StoreStmt → Bool) :
    ∀ l : List InsertStmt, (∀ s ∈ l, oracle (StoreStmt.dml s) = true) →
      runInserts oracle l = (l, l.map StoreStmt.dml, true) := by
  intro l
  induction l with
  | nil => intro _; rfl
  | cons s rest ih =>
    intro h
    have hs : oracle (StoreStmt.dml s) = true := h s (List.mem_cons_self s rest)
    have hrest := ih (fun q hq => h q (List.mem_cons_of_mem s hq))
    simp [runInserts, hs, hrest]

theorem runInserts_first_fail (oracle : StoreStmt → Bool) :
    ∀ (l : List InsertStmt) (k : Nat) (hk : k < l.length),
      (∀ s ∈ l.take k, oracle (StoreStmt.dml s) = true) →
      oracle (StoreStmt.dml (l.get ⟨k, hk⟩)) = false →
      runInserts oracle l =
        (l.take k, (l.take (k + 1)).map StoreStmt.dml, false) := by
  intro l
  induction l with
  | nil => intro k hk; simp at hk
  | cons s rest ih =>
    intro k hk hpre hfail
    cases k with
    | zero =>
      simp only [List.get] at hfail
      simp [runInserts, hfail]
    | succ k' =>
      have hs : oracle (StoreStmt.dml s) = true :=
        hpre s (by simp [List.take_succ_cons])
      have hk' : k' < rest.length := Nat.lt_of_succ_lt_succ hk
      have hfail' : oracle (StoreStmt.dml (rest.get ⟨k', hk'⟩)) = false := by
        simpa using hfail
      have hpre' : ∀ q ∈ rest.take k', oracle (StoreStmt.dml q) = true := by
        intro q hq
        exact hpre q (by simp [List.take_succ_cons, hq])
      simp [runInserts, hs, ih k' hk' hpre' hfail', List.take_succ_cons]

theorem create_valid (oracle : StoreStmt → Bool) (csv : String) (df : Dataset)
    (types : List String) (pw : String) (add_auto_id : Bool)
    (primary_keys : List String)
    (foreign_keys : List (String × String × String))
    (h1 : types.length = df.columns.length)
    (h2 : ∀ t ∈ types, base_type t ∈ valid_types) :
    create_table_and_insert_rows_from_csv oracle csv df types (some pw)
        add_auto_id primary_keys foreign_keys =
      execute oracle
        (emission_of csv df types add_auto_id primary_keys foreign_keys) := by
  have hne : ¬df.columns.length ≠ types.length := fun h => h h1.symm
  have hfi : findInvalid (df.columns.zip types) = none :=
    findInvalid_none_of_valid _ (fun p hp => h2 p.2 (List.of_mem_zip hp).2)
  unfold create_table_and_insert_rows_from_csv
  rw [if_neg hne, hfi]

/-! Claim theorems. -/

/-- C3: when the declared-types list's length differs from the dataset's
column count, the function fails with the SchemaMismatch validation error and
submits no statement at all (in particular no DDL) to the execution
collaborator. -/
theorem c3_schema_mismatch (oracle : StoreStmt → Bool) (csv : String)
    (df : Dataset) (types : List String) (mysql_password : Option String)
    (add_auto_id : Bool) (primary_keys : List String)
    (foreign_keys : List (String × String × String))
    (hlen : types.length ≠ df.columns.length) :
    create_table_and_insert_rows_from_csv oracle csv df types mysql_password
        add_auto_id primary_keys foreign_keys =
      (Outcome.validationFailure
        (ValidationError.schemaMismatch types.length df.columns.length), []) := by
  unfold create_table_and_insert_rows_from_csv
  rw [if_pos (Ne.symm hlen)]

/-- Witness for C3: two declared types against three csv columns. -/
theorem c3_witness :
    create_table_and_insert_rows_from_csv (fun _ => true) "t.csv"
        (Dataset.mk ["a", "b", "c"] []) ["INT", "INT"] none true [] [] =
      (Outcome.validationFailure (ValidationError.schemaMismatch 2 3), []) :=
  c3_schema_mismatch (fun _ => true) "t.csv" (Dataset.mk ["a", "b", "c"] [])
    ["INT", "INT"] none true [] [] (by decide)

/-- C2: when the lengths agree but some declared type's base token is not in
the recognized set, the validation scan finds an offending pair, the function
fails with the InvalidColumnType validation error naming exactly that column
and its full type string, and no statement reaches the execution
collaborator. -/
theorem c2_invalid_type_rejected (oracle : StoreStmt → Bool) (csv : String)
    (df : Dataset) (types : List String) (mysql_password : Option String)
    (add_auto_id : Bool) (primary_keys : List String)
    (foreign_keys : List (String × String × String))
    (hlen : types.length = df.columns.length)
    (hbad : ∃ t ∈ types, base_type t ∉ valid_types) :
    (findInvalid (df.columns.zip types)).isSome = true ∧
    ∀ p, findInvalid (df.columns.zip types) = some p →
      p ∈ df.columns.zip types ∧ base_type p.2 ∉ valid_types ∧
      create_table_and_insert_rows_from_csv oracle csv df types mysql_password
          add_auto_id primary_keys foreign_keys =
        (Outcome.validationFailure
          (ValidationError.invalidColumnType p.1 p.2), []) := by
  obtain ⟨t, ht, hb⟩ := hbad
  obtain ⟨c, hc⟩ := exists_mem_zip_right df.columns types hlen.symm t ht
  constructor
  · cases hfi : findInvalid (df.columns.zip types) with
    | some p => rfl
    | none => exact absurd (valid_of_findInvalid_none _ hfi (c, t) hc) hb
  · intro p hp
    obtain ⟨hmem, hbadp⟩ := findInvalid_some_spec _ p hp
    refine ⟨hmem, hbadp, ?_⟩
    unfold create_table_and_insert_rows_from_csv
    rw [if_neg (fun h => h hlen.symm), hp]

/-- Witness for C2: the single type `FOOBAR` is rejected naming column `a`. -/
theorem c2_witness :
    create_table_and_insert_rows_from_csv (fun _ => true) "t.csv"
        (Dataset.mk ["a"] []) ["FOOBAR"] none true [] [] =
      (Outcome.validationFailure
        (ValidationError.invalidColumnType "a" "FOOBAR"), []) := by
  have h := c2_invalid_type_rejected (fun _ => true) "t.csv"
    (Dataset.mk ["a"] []) ["FOOBAR"] none true [] []
    (by decide) ⟨"FOOBAR", by decide, by decide⟩
  exact (h.2 ("a", "FOOBAR") (by decide)).2.2

/-- C9: every call yields exactly one of the four observable outcomes, and the
success report, the validation failures and the store-execution failures are
mutually exclusive, so a caller can tell them apart. -/
theorem c9_outcome_taxonomy (oracle : StoreStmt → Bool) (csv : String)
    (df : Dataset) (types : List String) (mysql_password : Option String)
    (add_auto_id : Bool) (primary_keys : List String)
    (foreign_keys : List (String × String × String)) :
    (isSuccess (outcome_of oracle csv df types mysql_password add_auto_id
        primary_keys foreign_keys) ||
      isValidationFailure (outcome_of oracle csv df types mysql_password
        add_auto_id primary_keys foreign_keys) ||
      isCredentialMissing (outcome_of oracle csv df types mysql_password
        add_auto_id primary_keys foreign_keys) ||
      isStoreFailure (outcome_of oracle csv df types mysql_password
        add_auto_id primary_keys foreign_keys)) = true ∧
    (isValidationFailure (outcome_of oracle csv df types mysql_password
        add_auto_id primary_keys foreign_keys) &&
      isStoreFailure (outcome_of oracle csv df types mysql_password
        add_auto_id primary_keys foreign_keys)) = false ∧
    (isSuccess (outcome_of oracle csv df types mysql_password add_auto_id
        primary_keys foreign_keys) &&
      isValidationFailure (outcome_of oracle csv df types mysql_password
        add_auto_id primary_keys foreign_keys)) = false ∧
    (isSuccess (outcome_of oracle csv df types mysql_password add_auto_id
        primary_keys foreign_keys) &&
      isStoreFailure (outcome_of oracle csv df types mysql_password
        add_auto_id primary_keys foreign_keys)) = false := by
  have h : ∀ o : Outcome,
      (isSuccess o || isValidationFailure o || isCredentialMissing o ||
        isStoreFailure o) = true ∧
      (isValidationFailure o && isStoreFailure o) = false ∧
      (isSuccess o && isValidationFailure o) = false ∧
      (isSuccess o && isStoreFailure o) = false := by
    intro o
    cases o <;>
      simp [isSuccess, isValidationFailure, isCredentialMissing, isStoreFailure]
  exact h _

/-- C10: whenever the synthetic identifier column is emitted (`add_auto_id`
true and `primary_keys` empty), it is the head clause of the CREATE TABLE
clause list, named by suffixing the derived table name with `_id` and defined
as `INT AUTO_INCREMENT PRIMARY KEY`. -/
theorem c10_auto_id_clause (csv : String) (cols types : List String)
    (foreign_keys : List (String × String × String)) :
    (colonnes_a_creer (nom_de_la_table csv) cols types true [] foreign_keys).head? =
      some (nom_de_la_table csv ++ "_id INT AUTO_INCREMENT PRIMARY KEY") := by
  simp [colonnes_a_creer]

/-- C4: with a non-empty `primary_keys` list, the built clause list is
independent of `add_auto_id` and consists exactly of the declared columns, the
composite PRIMARY KEY clause and the FOREIGN KEY clauses — the synthetic
auto-increment identifier column is never among them — and the whole call's
observable behavior is independent of `add_auto_id`. -/
theorem c4_primary_key_supersedes_auto_id (tbl : String)
    (cols types : List String) (add_auto_id : Bool)
    (primary_keys : List String)
    (foreign_keys : List (String × String × String))
    (oracle : StoreStmt → Bool) (csv : String) (df : Dataset)
    (mysql_password : Option String)
    (hpk : primary_keys ≠ []) :
    colonnes_a_creer tbl cols types add_auto_id primary_keys foreign_keys =
      colonnes_a_creer tbl cols types false primary_keys foreign_keys ∧
    colonnes_a_creer tbl cols types add_auto_id primary_keys foreign_keys =
      (cols.zip types).map (fun p => "`" ++ p.1 ++ "` " ++ p.2) ++
        ("PRIMARY KEY (" ++
            String.intercalate ", "
              (primary_keys.map (fun k => "`" ++ k ++ "`")) ++ ")") ::
          (if foreign_keys.isEmpty then []
          else foreign_keys.map (fun f =>
            "FOREIGN KEY (`" ++ f.1 ++ "`) REFERENCES `" ++ f.2.1 ++ "`(`" ++
              f.2.2 ++ "`)")) ∧
    create_table_and_insert_rows_from_csv oracle csv df types mysql_password
        add_auto_id primary_keys foreign_keys =
      create_table_and_insert_rows_from_csv oracle csv df types mysql_password
        false primary_keys foreign_keys := by
  have hempty : primary_keys.isEmpty = false := by
    cases primary_keys with
    | nil => exact absurd rfl hpk
    | cons a l => rfl
  refine ⟨?_, ?_, ?_⟩
  · simp [colonnes_a_creer, hempty]
  · simp [colonnes_a_creer, hempty]
  · have he : emission_of csv df types add_auto_id primary_keys foreign_keys =
        emission_of csv df types false primary_keys foreign_keys := by
      simp [emission_of, buildEmission, colonnes_a_creer, hempty]
    unfold create_table_and_insert_rows_from_csv
    rw [he]

/-- Counterexample for C1 as stated: the claim calls the recognized set a
"23-entry set", but the tuple `valid_types` enumerated by the code (and by the
claim's own companion C2) has 24 entries. -/
theorem c1_counterexample :
    valid_types.length = 24 ∧ ¬valid_types.length = 23 := by decide

/-- C1 (amended: the recognized set has 24 entries): for every input whose
declared-types list matches the column count and whose base tokens are all
recognized, and with the credential present, the build succeeds: it produces
one INSERT per row; with a store accepting everything, the call succeeds and
submits exactly one DDL statement followed by the row INSERTs in input order;
and when the store first rejects the INSERT of row k (0-based, after
accepting the DDL and rows before k), exactly rows 0..k-1 remain committed,
each row having been its own committed unit of work. -/
theorem c1_valid_input_emission (oracle : StoreStmt → Bool) (csv : String)
    (df : Dataset) (types : List String) (pw : String) (add_auto_id : Bool)
    (primary_keys : List String)
    (foreign_keys : List (String × String × String))
    (hlen : types.length = df.columns.length)
    (htypes : ∀ t ∈ types, base_type t ∈ valid_types) :
    (emission_of csv df types add_auto_id primary_keys
        foreign_keys).inserts.length = df.rows.length ∧
    ((∀ s, oracle s = true) →
      create_table_and_insert_rows_from_csv oracle csv df types (some pw)
          add_auto_id primary_keys foreign_keys =
        (Outcome.success
            (emission_of csv df types add_auto_id primary_keys foreign_keys),
          StoreStmt.ddl (emission_of csv df types add_auto_id primary_keys
              foreign_keys).ddl ::
            (emission_of csv df types add_auto_id primary_keys
              foreign_keys).inserts.map StoreStmt.dml)) ∧
    (∀ (k : Nat) (hk : k < (emission_of csv df types add_auto_id primary_keys
        foreign_keys).inserts.length),
      oracle (StoreStmt.ddl (emission_of csv df types add_auto_id primary_keys
          foreign_keys).ddl) = true →
      (∀ s ∈ (emission_of csv df types add_auto_id primary_keys
          foreign_keys).inserts.take k, oracle (StoreStmt.dml s) = true) →
      oracle (StoreStmt.dml ((emission_of csv df types add_auto_id primary_keys
          foreign_keys).inserts.get ⟨k, hk⟩)) = false →
      create_table_and_insert_rows_from_csv oracle csv df types (some pw)
          add_auto_id primary_keys foreign_keys =
        (Outcome.storeFailure ((emission_of csv df types add_auto_id
            primary_keys foreign_keys).inserts.take k),
          StoreStmt.ddl (emission_of csv df types add_auto_id primary_keys
              foreign_keys).ddl ::
            ((emission_of csv df types add_auto_id primary_keys
              foreign_keys).inserts.take (k + 1)).map StoreStmt.dml)) := by
  refine ⟨?_, ?_, ?_⟩
  · simp [emission_of, buildEmission]
  · intro hall
    rw [create_valid oracle csv df types pw add_auto_id primary_keys
      foreign_keys hlen htypes]
    unfold execute
    rw [runInserts_all_ok oracle _ (fun s _ => hall _)]
    simp [hall]
  · intro k hk hddl hpre hfail
    rw [create_valid oracle csv df types pw add_auto_id primary_keys
      foreign_keys hlen htypes]
    unfold execute
    rw [runInserts_first_fail oracle _ k hk hpre hfail, hddl]
    simp

/-- Witness for C1: a two-column dataset with an all-accepting store. -/
theorem c1_witness :
    create_table_and_insert_rows_from_csv (fun _ => true) "clients.csv"
        (Dataset.mk ["nom", "age"]
          [[Cell.val "Alice", Cell.val "28"], [Cell.val "Bob", Cell.nan]])
        ["VARCHAR(50)", "INT"] (some "pw") true [] [] =
      (Outcome.success
          (emission_of "clients.csv"
            (Dataset.mk ["nom", "age"]
              [[Cell.val "Alice", Cell.val "28"], [Cell.val "Bob", Cell.nan]])
            ["VARCHAR(50)", "INT"] true [] []),
        StoreStmt.ddl (emission_of "clients.csv"
            (Dataset.mk ["nom", "age"]
              [[Cell.val "Alice", Cell.val "28"], [Cell.val "Bob", Cell.nan]])
            ["VARCHAR(50)", "INT"] true [] []).ddl ::
          (emission_of "clients.csv"
            (Dataset.mk ["nom", "age"]
              [[Cell.val "Alice", Cell.val "28"], [Cell.val "Bob", Cell.nan]])
            ["VARCHAR(50)", "INT"] true [] []).inserts.map StoreStmt.dml) :=
  (c1_valid_input_emission (fun _ => true) "clients.csv"
    (Dataset.mk ["nom", "age"]
      [[Cell.val "Alice", Cell.val "28"], [Cell.val "Bob", Cell.nan]])
    ["VARCHAR(50)", "INT"] "pw" true [] []
    (by decide) (by decide)).2.1 (fun s => rfl)

/-- Counterexample for C5 as stated: a declared column is not rendered as the
bare column name, a space and the type; the name is backtick-quoted. -/
theorem c5_counterexample :
    colonnes_a_creer "personnes" ["name", "age"] ["VARCHAR(50)", "INT"]
        true [] [] ≠
      ["personnes_id INT AUTO_INCREMENT PRIMARY KEY", "name VARCHAR(50)",
        "age INT"] := by decide

/-- C5 (amended: the column name is backtick-quoted): with `primary_keys`
empty and `add_auto_id` true, the clause list starts with the synthetic
identifier column and continues with each declared column rendered as the
backtick-quoted name, a space, and the declared type string verbatim, in
input column order; and the first statement submitted by a valid call is
exactly that CREATE TABLE statement. -/
theorem c5_ddl_layout (oracle : StoreStmt → Bool) (csv : String) (df : Dataset)
    (types : List String) (pw : String)
    (foreign_keys : List (String × String × String))
    (hlen : types.length = df.columns.length)
    (htypes : ∀ t ∈ types, base_type t ∈ valid_types) :
    colonnes_a_creer (nom_de_la_table csv) df.columns types true []
        foreign_keys =
      (nom_de_la_table csv ++ "_id INT AUTO_INCREMENT PRIMARY KEY") ::
        ((df.columns.zip types).map (fun p => "`" ++ p.1 ++ "` " ++ p.2) ++
          (if foreign_keys.isEmpty then []
          else foreign_keys.map (fun f =>
            "FOREIGN KEY (`" ++ f.1 ++ "`) REFERENCES `" ++ f.2.1 ++ "`(`" ++
              f.2.2 ++ "`)"))) ∧
    (create_table_and_insert_rows_from_csv oracle csv df types (some pw)
        true [] foreign_keys).2.head? =
      some (StoreStmt.ddl (emission_of csv df types true [] foreign_keys).ddl) := by
  constructor
  · simp [colonnes_a_creer]
  · rw [create_valid oracle csv df types pw true [] foreign_keys hlen htypes]
    unfold execute
    by_cases hddl :
        oracle (StoreStmt.ddl (emission_of csv df types true []
          foreign_keys).ddl) = true
    · rcases hr : runInserts oracle
          (emission_of csv df types true [] foreign_keys).inserts with
        ⟨committed, submitted, ok⟩
      simp [hddl, hr]
    · rw [Bool.not_eq_true] at hddl
      simp [hddl]

/-- Witness for C5 (amended): layout on the spec's two-column example. -/
theorem c5_witness :
    colonnes_a_creer (nom_de_la_table "personnes.csv") ["name", "age"]
        ["VARCHAR(50)", "INT"] true [] [] =
      (nom_de_la_table "personnes.csv" ++
          "_id INT AUTO_INCREMENT PRIMARY KEY") ::
        ((["name", "age"].zip ["VARCHAR(50)", "INT"]).map
            (fun p => "`" ++ p.1 ++ "` " ++ p.2) ++ []) :=
  (c5_ddl_layout (fun _ => true) "personnes.csv"
    (Dataset.mk ["name", "age"] []) ["VARCHAR(50)", "INT"] "pw" []
    (by decide) (by decide)).1

/-- C6: the value bound to a column's named placeholder is the absent-value
marker `none` exactly when the row's cell is the missing-value sentinel, and
the cell's own scalar otherwise; a missing value is never bound as a literal
"NaN" string. -/
theorem c6_nan_binds_none (cols : List String) (row : List Cell) (c : String)
    (cell : Cell) (hmem : (c, cell) ∈ cols.zip row) :
    (c, bindValue cell) ∈ valeurs cols row ∧
    (cell = Cell.nan → bindValue cell = none) ∧
    (∀ s, cell = Cell.val s → bindValue cell = some s) ∧
    (cell = Cell.nan → bindValue cell ≠ some "NaN") := by
  refine ⟨?_, ?_, ?_, ?_⟩
  · exact List.mem_map_of_mem (fun p => (p.1, bindValue p.2)) hmem
  · rintro rfl; rfl
  · rintro s rfl; rfl
  · rintro rfl; simp [bindValue, pd_notna]

/-- Witness for C6: a NaN cell for column `age` is bound as `none`. -/
theorem c6_witness :
    ("age", (none : Option String)) ∈ valeurs ["age"] [Cell.nan] ∧
    bindValue Cell.nan = none := by
  have h := c6_nan_binds_none ["age"] [Cell.nan] "age" Cell.nan (by decide)
  exact ⟨h.1, h.2.1 rfl⟩

/-- C7 (code bug): evaluating the code's table-name derivation on the file
name `mycsvdata.csv`.  The claim (and the function's own docstring) promise
the csv's name with the trailing extension removed, i.e. `mycsvdata`, but
`re.sub(".csv", "", csv)` treats `.csv` as a regex in which `.` matches any
character, so it also deletes the interior `ycsv` occurrence and produces
`mdata`. -/
theorem c7_table_name_bug :
    nom_de_la_table "mycsvdata.csv" = "mdata" ∧
    nom_de_la_table "mycsvdata.csv" ≠ "mycsvdata" := by decide

/-- C8: every row yields exactly one parameterized INSERT; all of them share
the same SQL text, whose column list and named placeholders come from the
csv column list in table-creation order, and each row's binding has exactly
one entry per column, keyed by the columns in that same order. -/
theorem c8_one_insert_per_row (csv : String) (df : Dataset)
    (types : List String) (add_auto_id : Bool) (primary_keys : List String)
    (foreign_keys : List (String × String × String))
    (hrows : ∀ r ∈ df.rows, r.length = df.columns.length) :
    (emission_of csv df types add_auto_id primary_keys
        foreign_keys).inserts.length = df.rows.length ∧
    ∀ s ∈ (emission_of csv df types add_auto_id primary_keys
        foreign_keys).inserts,
      s.sql = insert_sql (nom_de_la_table csv) df.columns ∧
      s.params.map Prod.fst = df.columns := by
  constructor
  · simp [emission_of, buildEmission]
  · intro s hs
    simp only [emission_of, buildEmission] at hs
    obtain ⟨r, hr, rfl⟩ := List.mem_map.mp hs
    refine ⟨rfl, ?_⟩
    show (valeurs df.columns r).map Prod.fst = df.columns
    unfold valeurs
    rw [List.map_map]
    have hcomp :
        (Prod.fst ∘ fun p : String × Cell => (p.1, bindValue p.2)) =
          Prod.fst := rfl
    rw [hcomp]
    exact List.map_fst_zip _ _ (le_of_eq (hrows r hr).symm)

/-- Witness for C8: one row, one INSERT, binding keyed by the column list. -/
theorem c8_witness :
    (emission_of "t.csv" (Dataset.mk ["a"] [[Cell.val "1"]]) ["INT"]
        true [] []).inserts.length = 1 ∧
    (mkInsert (nom_de_la_table "t.csv") ["a"] [Cell.val "1"]).sql =
      insert_sql (nom_de_la_table "t.csv") ["a"] ∧
    (mkInsert (nom_de_la_table "t.csv") ["a"] [Cell.val "1"]).params.map
      Prod.fst = ["a"] := by
  have h := c8_one_insert_per_row "t.csv" (Dataset.mk ["a"] [[Cell.val "1"]])
    ["INT"] true [] [] (by decide)
  have hm : mkInsert (nom_de_la_table "t.csv") ["a"] [Cell.val "1"] ∈
      (emission_of "t.csv" (Dataset.mk ["a"] [[Cell.val "1"]]) ["INT"]
        true [] []).inserts := by
    simp [emission_of, buildEmission]
  exact ⟨h.1, (h.2 _ hm).1, (h.2 _ hm).2⟩

/-- Witness for C4: with primary key `["a"]` the call ignores `add_auto_id`. -/
theorem c4_witness :
    create_table_and_insert_rows_from_csv (fun _ => true) "t.csv"
        (Dataset.mk ["a"] []) ["INT"] (some "pw") true ["a"] [] =
      create_table_and_insert_rows_from_csv (fun _ => true) "t.csv"
        (Dataset.mk ["a"] []) ["INT"] (some "pw") false ["a"] [] :=
  (c4_primary_key_supersedes_auto_id "t" ["a"] ["INT"] true ["a"] []
    (fun _ => true) "t.csv" (Dataset.mk ["a"] []) (some "pw")
    (by decide)).2.2

end SqlTools
